import Mathlib

/-!
Shallow embedding of teams_chatgpt_bot_captcha.py: a bot that logs into two
web applications via a remote-controlled browser, detects CAPTCHA pages,
manages a PID file and persisted statistics, and idles until shut down.
External effects (browser queries, the file system, the process table, the
clock) are passed in explicitly as environment records; each Python method
becomes a Lean function over those environments.
-/

namespace TeamsChatGptBot

/-- File-name constants from the top of the module. -/
def CONFIG_FILE : String := "bot_config.json"

def STATS_FILE : String := "bot_stats.json"

def PID_FILE : String := "bot.pid"

/-- Severity levels used through the logging module. -/
inductive LogLevel
  | info
  | warning
  | error
deriving DecidableEq, Repr

/-- One emitted log line. -/
structure LogEntry where
  level : LogLevel
  msg : String
deriving DecidableEq, Repr

/-! ## CAPTCHA detection (TeamsBot.detect_captcha)

The method runs three find_elements queries joined by a short-circuit or:
an iframe whose src contains recaptcha, an iframe whose src contains
hcaptcha, and a div with class g-recaptcha.  Each query either returns a
list of matching elements (modelled by its length) or raises.  A raised
exception anywhere in the condition is caught and the method returns False. -/

/-- Page state as seen by the three CSS queries of detect_captcha: for each
query, either the number of matching elements or a raised inspection error. -/
structure Page where
  recaptchaIframes : Except Unit Nat
  hcaptchaIframes : Except Unit Nat
  grecaptchaDivs : Except Unit Nat
deriving Repr

/-- The warning logged when a CAPTCHA is detected. -/
def captchaWarning : LogEntry :=
  ⟨.warning, "⚠️ Captcha detected – please solve it manually in the browser!"⟩

/-- The if-condition of detect_captcha: the three queries combined with a
short-circuit or, propagating the first raised exception. -/
def captchaCondition (p : Page) : Except Unit Bool :=
  match p.recaptchaIframes with
  | .error e => .error e
  | .ok a =>
    if a ≠ 0 then .ok true
    else
      match p.hcaptchaIframes with
      | .error e => .error e
      | .ok b =>
        if b ≠ 0 then .ok true
        else
          match p.grecaptchaDivs with
          | .error e => .error e
          | .ok c => .ok (c ≠ 0)

/-- TeamsBot.detect_captcha: true with a warning log when the condition
holds; false on a clear page; false as well when inspection raises (the
try/except swallows the exception). -/
def detect_captcha (p : Page) : Bool × List LogEntry :=
  match captchaCondition p with
  | .ok true => (true, [captchaWarning])
  | .ok false => (false, [])
  | .error _ => (false, [])

/-! ## Configuration (load_config, main)

The configuration file is a JSON object; the program reads string fields
(the four credentials and the trigger), numeric fields and one boolean.
Absent keys are modelled by none. -/

/-- The configuration record held in bot_config.json. -/
structure Config where
  teams_email : Option String
  teams_password : Option String
  chatgpt_email : Option String
  chatgpt_password : Option String
  bot_trigger : Option String
  check_interval : Option Nat
  headless : Option Bool
  max_retries : Option Nat
  retry_delay : Option Nat
deriving DecidableEq, Repr

/-- The default configuration written by load_config when the file is absent. -/
def default_config : Config where
  teams_email := some ""
  teams_password := some ""
  chatgpt_email := some ""
  chatgpt_password := some ""
  bot_trigger := some "@bot"
  check_interval := some 10
  headless := some false
  max_retries := some 3
  retry_delay := some 30

/-! ## Browser session construction (TeamsBot.setup_driver) -/

/-- Chrome options assembled by setup_driver. -/
structure ChromeOptions where
  args : List String
  excludeSwitches : List String
  useAutomationExtension : Bool
deriving DecidableEq, Repr

/-- A constructed browser session handle with its timeouts. -/
structure Driver where
  options : ChromeOptions
  pageLoadTimeoutSecs : Nat
  implicitWaitSecs : Nat
deriving DecidableEq, Repr

/-- The option set setup_driver builds: headless hardening flags when the
headless tunable is on, plus the automation-suppression switches. -/
def buildChromeOptions (headless : Bool) : ChromeOptions where
  args :=
    (if headless then
       ["--headless", "--no-sandbox", "--disable-dev-shm-usage", "--disable-gpu"]
     else []) ++ ["--disable-blink-features=AutomationControlled"]
  excludeSwitches := ["enable-automation"]
  useAutomationExtension := false

/-- Errors raised by browser steps.  The timeout constructor carries the
locator that never yielded an element within its bounded wait. -/
inductive StepErr
  | driverUnavailable
  | navigationError
  | timeout (locator : String)
deriving DecidableEq, Repr

/-- Message text of a raised step error, as interpolated into log lines. -/
def errMsg : StepErr → String
  | .driverUnavailable => "could not start chromedriver"
  | .navigationError => "page load timed out"
  | .timeout locator => "TimeoutException waiting for " ++ locator

/-- TeamsBot.setup_driver: build the option set and construct a Chrome
session with a 30 second page-load timeout and a 10 second implicit wait.
There is no try/except here: when the browser cannot be constructed the
error propagates to the caller. -/
def setup_driver (headless : Bool) (chromeAvailable : Bool) : Except StepErr Driver :=
  if chromeAvailable then
    .ok { options := buildChromeOptions headless
          pageLoadTimeoutSecs := 30
          implicitWaitSecs := 10 }
  else .error .driverUnavailable

/-! ## Bot state and observable actions -/

/-- Mutable fields of TeamsBot and its ProcessManager that the claims are
about: the two driver handles, the idle-loop flag TeamsBot.is_running and
the flag ProcessManager.running that the signal handler clears. -/
structure BotState where
  teams_driver : Option Driver
  chatgpt_driver : Option Driver
  is_running : Bool
  pm_running : Bool
deriving DecidableEq, Repr

/-- State of a TeamsBot as constructed by TeamsBot.__init__. -/
def initial_state : BotState where
  teams_driver := none
  chatgpt_driver := none
  is_running := false
  pm_running := true

/-- Externally observable actions the program performs, traced so theorems
can speak about what was and was not attempted. -/
inductive BotAction
  | loginTeamsAttempt
  | loginChatgptAttempt
  | navigate (url : String)
  | sleepSecs (n : Nat)
  | sendKeys (locator : String)
  | click (locator : String)
  | quitDriver (which : String)
  | fsWriteConfig (path : String) (c : Config)
  | fsWritePid (path : String)
  | fsRemove (path : String)
deriving DecidableEq, Repr

/-! ## Login state machines (TeamsBot.login_to_teams, TeamsBot.login_to_chatgpt)

Each login drives its own browser through navigate, an optional CAPTCHA
pause, credential entry and a bounded wait for a post-login marker.  The
environment records which bounded waits succeed and how many consecutive
CAPTCHA polls come back positive before the page is clear. -/

/-- Environment of one login_to_teams run. -/
structure TeamsLoginEnv where
  chromeAvailable : Bool
  navOk : Bool
  captchaPolls : Nat
  emailFieldAppears : Bool
  passwordFieldAppears : Bool
  staySignedInAppears : Bool
  markerAppears : Bool
deriving DecidableEq, Repr

/-- Environment of one login_to_chatgpt run. -/
structure ChatgptLoginEnv where
  chromeAvailable : Bool
  navOk : Bool
  captchaPolls : Nat
  loginButtonAppears : Bool
  usernameAppears : Bool
  passwordAppears : Bool
  markerAppears : Bool
deriving DecidableEq, Repr

/-- The CAPTCHA pause at the top of both logins: if detect_captcha then
while detect_captcha sleep 5.  With n consecutive positive detections the
while-condition is checked until it turns false, giving max (n-1) 0 sleeps
and n warning lines. -/
def captchaPause (positives : Nat) : List BotAction × List LogEntry :=
  match positives with
  | 0 => ([], [])
  | n + 1 => ((List.replicate n (.sleepSecs 5)), List.replicate (n + 1) captchaWarning)

/-- Result of one login attempt: the value the method returns to its caller
(or the exception it would raise), the bot state afterwards, the traced
actions and the log lines. -/
structure LoginOutcome where
  result : Except StepErr Bool
  state : BotState
  actions : List BotAction
  logs : List LogEntry

/-- Body of the try-block of login_to_teams: construct the driver and store
it in self.teams_driver, navigate, pause on CAPTCHA, fill the email field
(ID i0116), click next (ID idSIButton9), fill the password field (ID i0118),
submit, optionally confirm stay-signed-in, and wait for the post-login
marker data-tid=app-bar-chat.  The first failing step raises. -/
def login_to_teams_body (c : Config) (env : TeamsLoginEnv) (s : BotState) :
    Except StepErr Unit × BotState × List BotAction × List LogEntry :=
  match setup_driver (c.headless.getD false) env.chromeAvailable with
  | .error e => (.error e, s, [], [])
  | .ok d =>
    let s1 : BotState := { s with teams_driver := some d }
    if env.navOk = false then
      (.error .navigationError, s1, [.navigate "https://teams.microsoft.com"], [])
    else
      let pause := captchaPause env.captchaPolls
      let acts0 := .navigate "https://teams.microsoft.com" :: pause.1
      if env.emailFieldAppears = false then
        (.error (.timeout "i0116"), s1, acts0, pause.2)
      else
        let acts1 := acts0 ++ [.sendKeys "i0116", .click "idSIButton9"]
        if env.passwordFieldAppears = false then
          (.error (.timeout "i0118"), s1, acts1, pause.2)
        else
          let acts2 := acts1 ++ [.sendKeys "i0118", .click "idSIButton9"] ++
            (if env.staySignedInAppears then [.click "idSIButton9"] else [])
          if env.markerAppears = false then
            (.error (.timeout "data-tid=app-bar-chat"), s1, acts2, pause.2)
          else
            (.ok (), s1, acts2, pause.2)

/-- TeamsBot.login_to_teams: the body wrapped in try/except Exception.  A
raised step error is caught, logged as a Teams login error with the
exception message, and turned into a False return; on success the method
logs and returns True.  The result is always ok: no exception escapes. -/
def login_to_teams (c : Config) (env : TeamsLoginEnv) (s : BotState) : LoginOutcome :=
  match login_to_teams_body c env s with
  | (.ok (), s1, acts, logs) =>
    { result := .ok true
      state := s1
      actions := .loginTeamsAttempt :: acts
      logs := ⟨.info, "Starte Teams-Login..."⟩ ::
        (logs ++ [⟨.info, "Successfully logged into Teams"⟩]) }
  | (.error e, s1, acts, logs) =>
    { result := .ok false
      state := s1
      actions := .loginTeamsAttempt :: acts
      logs := ⟨.info, "Starte Teams-Login..."⟩ ::
        (logs ++ [⟨.error, "Teams login error: " ++ errMsg e⟩]) }

/-- Body of the try-block of login_to_chatgpt: construct the driver and
store it in self.chatgpt_driver, navigate, pause on CAPTCHA, click the
log-in button, fill the username field, submit, fill the password field,
submit, and wait for the post-login message textarea.  The first failing
step raises. -/
def login_to_chatgpt_body (c : Config) (env : ChatgptLoginEnv) (s : BotState) :
    Except StepErr Unit × BotState × List BotAction × List LogEntry :=
  match setup_driver (c.headless.getD false) env.chromeAvailable with
  | .error e => (.error e, s, [], [])
  | .ok d =>
    let s1 : BotState := { s with chatgpt_driver := some d }
    if env.navOk = false then
      (.error .navigationError, s1, [.navigate "https://chat.openai.com"], [])
    else
      let pause := captchaPause env.captchaPolls
      let acts0 := .navigate "https://chat.openai.com" :: pause.1
      if env.loginButtonAppears = false then
        (.error (.timeout "button Log in"), s1, acts0, pause.2)
      else
        let acts1 := acts0 ++ [.click "button Log in"]
        if env.usernameAppears = false then
          (.error (.timeout "username"), s1, acts1, pause.2)
        else
          let acts2 := acts1 ++ [.sendKeys "username", .click "button submit"]
          if env.passwordAppears = false then
            (.error (.timeout "password"), s1, acts2, pause.2)
          else
            let acts3 := acts2 ++ [.sendKeys "password", .click "button submit"]
            if env.markerAppears = false then
              (.error (.timeout "textarea placeholder Message"), s1, acts3, pause.2)
            else
              (.ok (), s1, acts3, pause.2)

/-- TeamsBot.login_to_chatgpt: the body wrapped in try/except Exception,
mirroring login_to_teams.  The result is always ok: no exception escapes. -/
def login_to_chatgpt (c : Config) (env : ChatgptLoginEnv) (s : BotState) : LoginOutcome :=
  match login_to_chatgpt_body c env s with
  | (.ok (), s1, acts, logs) =>
    { result := .ok true
      state := s1
      actions := .loginChatgptAttempt :: acts
      logs := ⟨.info, "Starte ChatGPT-Login..."⟩ ::
        (logs ++ [⟨.info, "Successfully logged into ChatGPT"⟩]) }
  | (.error e, s1, acts, logs) =>
    { result := .ok false
      state := s1
      actions := .loginChatgptAttempt :: acts
      logs := ⟨.info, "Starte ChatGPT-Login..."⟩ ::
        (logs ++ [⟨.error, "ChatGPT login error: " ++ errMsg e⟩]) }

/-! ## Teardown (TeamsBot.stop)

stop clears is_running and then quits each driver that is set, in order and
with no try/except: an exception from the first quit propagates out of the
method and the second quit is never reached. -/

/-- Environment of one stop run: whether each quit call returns normally. -/
structure StopEnv where
  teamsQuitOk : Bool
  chatgptQuitOk : Bool
deriving DecidableEq, Repr

/-- Result of a stop run: the unit return or the propagated quit exception,
the state afterwards, the attempted quit actions and the log lines. -/
structure StopOutcome where
  result : Except Unit Unit
  state : BotState
  actions : List BotAction
  logs : List LogEntry

/-- TeamsBot.stop: log, clear is_running, quit teams_driver when set, then
quit chatgpt_driver when set.  A quit that raises aborts the method there;
the closing log line is only reached when nothing raised. -/
def stop (env : StopEnv) (s : BotState) : StopOutcome :=
  let s1 : BotState := { s with is_running := false }
  match s1.teams_driver with
  | some _ =>
    if env.teamsQuitOk then
      match s1.chatgpt_driver with
      | some _ =>
        if env.chatgptQuitOk then
          { result := .ok (), state := s1
            actions := [.quitDriver "teams", .quitDriver "chatgpt"]
            logs := [⟨.info, "Stopping bot..."⟩, ⟨.info, "Bot stopped"⟩] }
        else
          { result := .error (), state := s1
            actions := [.quitDriver "teams", .quitDriver "chatgpt"]
            logs := [⟨.info, "Stopping bot..."⟩] }
      | none =>
        { result := .ok (), state := s1
          actions := [.quitDriver "teams"]
          logs := [⟨.info, "Stopping bot..."⟩, ⟨.info, "Bot stopped"⟩] }
    else
      { result := .error (), state := s1
        actions := [.quitDriver "teams"]
        logs := [⟨.info, "Stopping bot..."⟩] }
  | none =>
    match s1.chatgpt_driver with
    | some _ =>
      if env.chatgptQuitOk then
        { result := .ok (), state := s1
          actions := [.quitDriver "chatgpt"]
          logs := [⟨.info, "Stopping bot..."⟩, ⟨.info, "Bot stopped"⟩] }
      else
        { result := .error (), state := s1
          actions := [.quitDriver "chatgpt"]
          logs := [⟨.info, "Stopping bot..."⟩] }
    | none =>
      { result := .ok (), state := s1
        actions := []
        logs := [⟨.info, "Stopping bot..."⟩, ⟨.info, "Bot stopped"⟩] }

/-! ## Process manager: signals, PID file, idle loop -/

/-- The handler installed for SIGINT and SIGTERM: it logs and clears
ProcessManager.running.  It touches no other field; in particular it does
not clear TeamsBot.is_running. -/
def signal_handler (s : BotState) : BotState × List LogEntry :=
  ({ s with pm_running := false }, [⟨.info, "Received signal, shutting down..."⟩])

/-- The guard of the idle loop in TeamsBot.start: while self.is_running. -/
def idle_loop_continues (s : BotState) : Bool := s.is_running

/-- One iteration of the idle loop body: sleep for check_interval seconds
(default 10).  The loop reads no flag other than is_running. -/
def idle_loop_step (c : Config) : List BotAction :=
  [.sleepSecs (c.check_interval.getD 10)]

/-- ProcessManager.write_pid: write the current PID to the PID file. -/
def write_pid : List BotAction := [.fsWritePid PID_FILE]

/-- ProcessManager.cleanup_pid: remove the PID file when it exists.  This
method is defined in the program but has no call site. -/
def cleanup_pid (pidFileExists : Bool) : List BotAction :=
  if pidFileExists then [.fsRemove PID_FILE] else []

/-! ## Orchestration (TeamsBot.start, main) -/

/-- Decidable equality on Except values with decidable components. -/
instance exceptDecEq {ε α : Type} [DecidableEq ε] [DecidableEq α] :
    DecidableEq (Except ε α) := fun x y =>
  match x, y with
  | .ok a, .ok b =>
    if h : a = b then isTrue (by rw [h])
    else isFalse (fun hh => h (Except.ok.inj hh))
  | .error a, .error b =>
    if h : a = b then isTrue (by rw [h])
    else isFalse (fun hh => h (Except.error.inj hh))
  | .ok _, .error _ => isFalse (fun hh => Except.noConfusion hh)
  | .error _, .ok _ => isFalse (fun hh => Except.noConfusion hh)

/-- Environments of both login runs, as consumed by start. -/
structure StartEnv where
  teams : TeamsLoginEnv
  chatgpt : ChatgptLoginEnv
deriving DecidableEq, Repr

/-- Result of the part of start before the idle loop: the state (with
is_running set when both logins succeeded), traced actions and logs.  The
idle loop itself is modelled by idle_loop_continues and idle_loop_step. -/
structure StartOutcome where
  state : BotState
  actions : List BotAction
  logs : List LogEntry

/-- TeamsBot.start up to the idle loop: login to Teams, return early on
failure; login to ChatGPT, return early on failure; otherwise set
is_running and (in the source) enter while self.is_running: sleep. -/
def start (c : Config) (env : StartEnv) (s : BotState) : StartOutcome :=
  let startLog : LogEntry := ⟨.info, "Starting Teams-ChatGPT Bot..."⟩
  let t := login_to_teams c env.teams s
  if t.result = .ok true then
    let g := login_to_chatgpt c env.chatgpt t.state
    if g.result = .ok true then
      { state := { g.state with is_running := true }
        actions := t.actions ++ g.actions
        logs := startLog :: (t.logs ++ g.logs ++
          [⟨.info, "Bot successfully started and ready!"⟩]) }
    else
      { state := g.state
        actions := t.actions ++ g.actions
        logs := startLog :: (t.logs ++ g.logs ++
          [⟨.error, "Failed to login to ChatGPT"⟩]) }
  else
    { state := t.state
      actions := t.actions
      logs := startLog :: (t.logs ++ [⟨.error, "Failed to login to Teams"⟩]) }

/-- load_config: when the file exists return its parsed contents; when it
does not, write the default configuration to it, print an instruction to
fill it in, and return the defaults.  The file contents are passed in as
an already-parsed optional Config. -/
def load_config (file : Option Config) : Config × List BotAction × List String :=
  match file with
  | some c => (c, [], [])
  | none =>
    (default_config, [.fsWriteConfig CONFIG_FILE default_config],
      ["Konfigurationsdatei \x27" ++ CONFIG_FILE ++ "\x27 erstellt. Bitte ausfüllen!"])

/-- The four credential fields checked by main, in source order. -/
def credential_fields : List String :=
  ["teams_email", "teams_password", "chatgpt_email", "chatgpt_password"]

/-- String-valued dictionary lookup on a Config, for the credential keys. -/
def Config.lookup (c : Config) : String → Option String
  | "teams_email" => c.teams_email
  | "teams_password" => c.teams_password
  | "chatgpt_email" => c.chatgpt_email
  | "chatgpt_password" => c.chatgpt_password
  | _ => none

/-- The falsiness test of main: not config.get(f), true when the key is
absent or its value is the empty string. -/
def credMissing (c : Config) (f : String) : Bool :=
  match c.lookup f with
  | none => true
  | some s => s.isEmpty

/-- The list comprehension of main: the credential fields that are absent
or empty, in source order. -/
def missing_fields (c : Config) : List String :=
  credential_fields.filter (credMissing c)

/-- The message printed by main when credentials are missing. -/
def missing_message (missing : List String) : String :=
  "Bitte folgende Felder in " ++ CONFIG_FILE ++ " ausfüllen: " ++
    String.intercalate ", " missing

/-- External environment of one run of main. -/
structure WorldEnv where
  configFile : Option Config
  teams : TeamsLoginEnv
  chatgpt : ChatgptLoginEnv
  stopEnv : StopEnv
deriving DecidableEq, Repr

/-- Result of one run of main: printed lines, traced actions, logs. -/
structure MainOutcome where
  prints : List String
  actions : List BotAction
  logs : List LogEntry
  finalState : BotState

/-- main: load the configuration, abort with a printed message when any of
the four credential fields is missing or empty, otherwise construct the
bot (whose ProcessManager writes the PID file), run start, and in the
finally block run stop.  The idle loop between start and stop is elided
here: it performs only sleeps and, in the source, never exits on its own. -/
def mainRun (w : WorldEnv) : MainOutcome :=
  let loaded := load_config w.configFile
  let c := loaded.1
  let missing := missing_fields c
  if missing.isEmpty = false then
    { prints := loaded.2.2 ++ [missing_message missing]
      actions := loaded.2.1
      logs := []
      finalState := initial_state }
  else
    let st := start c ⟨w.teams, w.chatgpt⟩ initial_state
    let sp := stop w.stopEnv st.state
    { prints := loaded.2.2
      actions := loaded.2.1 ++ write_pid ++ st.actions ++ sp.actions
      logs := st.logs ++ sp.logs
      finalState := sp.state }

/-! ## Duplicate-instance check (ProcessManager.is_already_running) -/

/-- External environment of is_already_running: the PID file contents (none
when the file is absent), which PIDs name a live process, each live
process's command line, and whether inspecting it raises an error other
than NoSuchProcess (for example access denied). -/
structure ProcTableEnv where
  pidFile : Option String
  processExists : Int → Bool
  cmdlineOf : Int → List String
  cmdlineFails : Int → Bool

/-- ProcessManager.is_already_running: true only when the PID file exists,
its stripped contents parse as an integer, that PID names a live process
whose command line can be read and contains the marker teams_chatgpt_bot.
int() raising, NoSuchProcess and every other exception all end in False:
the method never raises. -/
def is_already_running (env : ProcTableEnv) : Bool :=
  match env.pidFile with
  | none => false
  | some content =>
    match content.trim.toInt? with
    | none => false
    | some pid =>
      if env.processExists pid then
        if env.cmdlineFails pid then false
        else decide ("teams_chatgpt_bot".data <:+:
          (String.intercalate " " (env.cmdlineOf pid)).data)
      else false

/-! ## Statistics (BotStats) -/

/-- The stats dictionary: the recorded start time, the numeric counters
accessed through get(key, 0), the last-activity timestamp and the derived
uptime.  Timestamps are modelled as integers. -/
structure StatsState where
  start_time : Int
  counters : String → Int
  last_activity : Option Int
  uptime : Int

/-- The stats record as built by BotStats.__init__ before loading. -/
def stats_defaults (startTime : Int) : StatsState where
  start_time := startTime
  counters := fun _ => 0
  last_activity := none
  uptime := 0

/-- BotStats.save_stats at time now: recompute uptime from start_time, then
attempt to rewrite the stats file with the full record.  A write failure is
logged as a warning and swallowed, leaving the disk contents unchanged. -/
def save_stats (now : Int) (writeOk : Bool) (disk : Option StatsState)
    (s : StatsState) : StatsState × Option StatsState × List LogEntry :=
  let s1 : StatsState := { s with uptime := now - s.start_time }
  if writeOk then (s1, some s1, [])
  else (s1, disk, [⟨.warning, "Could not save stats"⟩])

/-- BotStats.increment at time now: add one to the counter under key
(defaulting to zero), stamp last_activity with the current time, and call
save_stats. -/
def increment (now : Int) (writeOk : Bool) (key : String) (disk : Option StatsState)
    (s : StatsState) : StatsState × Option StatsState × List LogEntry :=
  let s1 : StatsState :=
    { s with
      counters := fun k => if k = key then s.counters k + 1 else s.counters k
      last_activity := some now }
  save_stats now writeOk disk s1

/-! ## Concrete example inputs used by witnesses and counterexamples -/

/-- Page with one reCAPTCHA iframe and nothing else. -/
def pageEx : Page := ⟨.ok 1, .ok 0, .ok 0⟩

/-- The driver produced by setup_driver with headless off. -/
def driverEx : Driver :=
  { options := buildChromeOptions false, pageLoadTimeoutSecs := 30, implicitWaitSecs := 10 }

/-- Teams login environment where everything works until the post-login
marker, which never appears. -/
def teamsEnvTimeout : TeamsLoginEnv :=
  { chromeAvailable := true, navOk := true, captchaPolls := 0, emailFieldAppears := true
    passwordFieldAppears := true, staySignedInAppears := false, markerAppears := false }

/-- ChatGPT login environment where everything works until the post-login
marker, which never appears. -/
def chatgptEnvTimeout : ChatgptLoginEnv :=
  { chromeAvailable := true, navOk := true, captchaPolls := 0, loginButtonAppears := true
    usernameAppears := true, passwordAppears := true, markerAppears := false }

/-- Teams login environment where the browser session cannot be built. -/
def teamsEnvNoDriver : TeamsLoginEnv :=
  { chromeAvailable := false, navOk := true, captchaPolls := 0, emailFieldAppears := true
    passwordFieldAppears := true, staySignedInAppears := true, markerAppears := true }

/-- Bot state in which both browser sessions exist. -/
def bothDriversState : BotState :=
  { teams_driver := some driverEx, chatgpt_driver := some driverEx
    is_running := true, pm_running := true }

/-- Stop environment in which quitting the Teams session raises. -/
def stopEnvTeamsFail : StopEnv := { teamsQuitOk := false, chatgptQuitOk := true }

/-- Configuration whose teams_email key is absent and whose other three
credentials are filled. -/
def configMissingEx : Config :=
  { teams_email := none, teams_password := some "pw", chatgpt_email := some "user@x"
    chatgpt_password := some "pw2", bot_trigger := some "@bot", check_interval := some 10
    headless := some false, max_retries := some 3, retry_delay := some 30 }

/-- World environment whose configuration file holds configMissingEx. -/
def worldMissingEx : WorldEnv :=
  { configFile := some configMissingEx
    teams := teamsEnvTimeout, chatgpt := chatgptEnvTimeout
    stopEnv := { teamsQuitOk := true, chatgptQuitOk := true } }

/-- Stats state with a recorded last activity at time 0. -/
def statsEx : StatsState :=
  { start_time := 0, counters := fun _ => 0, last_activity := some 0, uptime := 0 }

/-! ## Theorems -/

/-- C2: detect_captcha returns true exactly when at least one of the three
marker patterns (a recaptcha iframe, an hcaptcha iframe, a g-recaptcha div)
is present on an inspectable page, returns false when none are present, and
never propagates an exception: an inspection failure yields false, and the
only side effect is one warning log line on positive detection. -/
theorem detect_captcha_spec (p : Page) :
    (∀ a b c, p.recaptchaIframes = .ok a → p.hcaptchaIframes = .ok b →
      p.grecaptchaDivs = .ok c →
      ((detect_captcha p).1 = true ↔ (a ≠ 0 ∨ b ≠ 0 ∨ c ≠ 0))) ∧
    ((captchaCondition p).isOk = false → (detect_captcha p).1 = false) ∧
    ((detect_captcha p).2 =
      if (detect_captcha p).1 = true then [captchaWarning] else []) := by
  obtain ⟨ra, rb, rc⟩ := p
  refine ⟨?_, ?_, ?_⟩
  · rintro a b c rfl rfl rfl
    by_cases h1 : a = 0 <;> by_cases h2 : b = 0 <;> by_cases h3 : c = 0 <;>
      simp [detect_captcha, captchaCondition, h1, h2, h3]
  · intro h
    cases ra with
    | error e => simp [detect_captcha, captchaCondition]
    | ok a =>
      by_cases h1 : a = 0
      · cases rb with
        | error e => simp [detect_captcha, captchaCondition, h1]
        | ok b =>
          by_cases h2 : b = 0
          · cases rc with
            | error e => simp [detect_captcha, captchaCondition, h1, h2]
            | ok c => simp [captchaCondition, Except.isOk, Except.toBool, h1, h2] at h
          · simp [captchaCondition, Except.isOk, Except.toBool, h1, h2] at h
      · simp [captchaCondition, Except.isOk, Except.toBool, h1] at h
  · cases hcc : captchaCondition ⟨ra, rb, rc⟩ with
    | error e => simp [detect_captcha, hcc]
    | ok b => cases b <;> simp [detect_captcha, hcc]

/-- Witness for detect_captcha_spec: on a page holding one recaptcha iframe
and nothing else, detection reports true. -/
theorem detect_captcha_spec_witness : (detect_captcha pageEx).1 = true :=
  ((detect_captcha_spec pageEx).1 1 0 0 rfl rfl rfl).mpr (Or.inl one_ne_zero)

/-- C9: is_already_running returns true exactly when the PID file exists,
its content parses as an integer naming a live process whose command line
can be read and contains the bot marker string; a stale PID file whose
recorded process is dead, unreadable or differently named yields false, and
every failure path yields false rather than an exception. -/
theorem is_already_running_spec (env : ProcTableEnv) :
    is_already_running env = true ↔
      ∃ content pid, env.pidFile = some content ∧ content.trim.toInt? = some pid ∧
        env.processExists pid = true ∧ env.cmdlineFails pid = false ∧
        "teams_chatgpt_bot".data <:+:
          (String.intercalate " " (env.cmdlineOf pid)).data := by
  obtain ⟨pf, pe, co, cf⟩ := env
  cases pf with
  | none => simp [is_already_running]
  | some content =>
    cases hparse : content.trim.toInt? with
    | none => simp [is_already_running, hparse]
    | some pid =>
      by_cases hex : pe pid
      · by_cases hcf : cf pid
        · simp [is_already_running, hparse, hex, hcf]
        · simp [is_already_running, hparse, hex, hcf]
      · simp [is_already_running, hparse, hex]

/-- C7: increment on any counter key leaves that counter strictly greater
than before, leaves every counter at least what it was, stamps
last_activity with a timestamp newer than the previous one whenever the
clock advanced, and persists the full updated stats record to disk when the
write succeeds. -/
theorem increment_spec (now tPrev : Int) (writeOk : Bool) (key : String)
    (disk : Option StatsState) (s : StatsState)
    (_hprev : s.last_activity = some tPrev) (hclock : tPrev < now)
    (hw : writeOk = true) :
    s.counters key < (increment now writeOk key disk s).1.counters key ∧
    (∀ k, s.counters k ≤ (increment now writeOk key disk s).1.counters k) ∧
    (∃ t, (increment now writeOk key disk s).1.last_activity = some t ∧ tPrev < t) ∧
    (increment now writeOk key disk s).2.1 = some (increment now writeOk key disk s).1 := by
  subst hw
  refine ⟨?_, ?_, ?_, ?_⟩
  · simp [increment, save_stats]
  · intro k
    have hval : (increment now true key disk s).1.counters k =
        if k = key then s.counters k + 1 else s.counters k := rfl
    rw [hval]
    by_cases hk : k = key
    · rw [if_pos hk]; omega
    · rw [if_neg hk]
  · exact ⟨now, by simp [increment, save_stats], hclock⟩
  · simp [increment, save_stats]

/-- Witness for increment_spec: from a stats record whose last activity was
at time 0, an increment of the errors counter at time 1 raises it. -/
theorem increment_spec_witness :
    statsEx.counters "errors" < (increment 1 true "errors" none statsEx).1.counters "errors" :=
  (increment_spec 1 0 true "errors" none statsEx rfl (by decide) rfl).1

/-- C5: whenever one or more of the four credential fields is empty or
absent, main prints one message listing exactly the missing field names (in
source order) and returns without attempting any login. -/
theorem missing_credentials_abort (c : Config) (w : WorldEnv)
    (hw : w.configFile = some c) (hm : missing_fields c ≠ []) :
    (mainRun w).prints = [missing_message (missing_fields c)] ∧
    (∀ f, f ∈ missing_fields c ↔ f ∈ credential_fields ∧ credMissing c f = true) ∧
    BotAction.loginTeamsAttempt ∉ (mainRun w).actions ∧
    BotAction.loginChatgptAttempt ∉ (mainRun w).actions := by
  have hload : load_config w.configFile = (c, [], []) := by rw [hw]; rfl
  have hne : (missing_fields c).isEmpty = false := by
    cases h : missing_fields c with
    | nil => exact absurd h hm
    | cons a l => rfl
  refine ⟨?_, ?_, ?_, ?_⟩
  · simp [mainRun, hload, hne]
  · intro f
    simp [missing_fields, List.mem_filter]
  · simp [mainRun, hload, hne]
  · simp [mainRun, hload, hne]

/-- Witness for missing_credentials_abort: with a configuration whose
teams_email key is absent, main prints the missing-fields message. -/
theorem missing_credentials_abort_witness :
    (mainRun worldMissingEx).prints = [missing_message (missing_fields configMissingEx)] :=
  (missing_credentials_abort configMissingEx worldMissingEx rfl (by decide)).1

/-- C6: when the configuration file is absent, load_config returns the
default configuration and writes it to the file, with empty credential
strings, bot_trigger at-bot, check_interval 10, headless false, max_retries
3 and retry_delay 30; main then attempts no login on that run. -/
theorem absent_config_creates_defaults (te : TeamsLoginEnv) (ce : ChatgptLoginEnv)
    (se : StopEnv) :
    (load_config none).1 = default_config ∧
    (load_config none).2.1 = [.fsWriteConfig CONFIG_FILE default_config] ∧
    default_config.teams_email = some "" ∧
    default_config.teams_password = some "" ∧
    default_config.chatgpt_email = some "" ∧
    default_config.chatgpt_password = some "" ∧
    default_config.bot_trigger = some "@bot" ∧
    default_config.check_interval = some 10 ∧
    default_config.headless = some false ∧
    default_config.max_retries = some 3 ∧
    default_config.retry_delay = some 30 ∧
    BotAction.loginTeamsAttempt ∉ (mainRun ⟨none, te, ce, se⟩).actions ∧
    BotAction.loginChatgptAttempt ∉ (mainRun ⟨none, te, ce, se⟩).actions := by
  have hmf : missing_fields default_config = credential_fields := by decide
  have hne : (missing_fields default_config).isEmpty = false := by rw [hmf]; rfl
  refine ⟨rfl, rfl, rfl, rfl, rfl, rfl, rfl, rfl, rfl, rfl, rfl, ?_, ?_⟩
  · simp [mainRun, load_config, hne]
  · simp [mainRun, load_config, hne]

/-- C3: a login attempt (Teams or ChatGPT) in which the post-login marker
never appears within its bounded wait returns False to its caller rather
than raising, and logs the failure with the message of the causing timeout
exception. -/
theorem login_marker_timeout_fails (c : Config) (te : TeamsLoginEnv)
    (ce : ChatgptLoginEnv) (s s2 : BotState)
    (h1 : te.chromeAvailable = true) (h2 : te.navOk = true)
    (h3 : te.emailFieldAppears = true) (h4 : te.passwordFieldAppears = true)
    (h5 : te.markerAppears = false)
    (g1 : ce.chromeAvailable = true) (g2 : ce.navOk = true)
    (g3 : ce.loginButtonAppears = true) (g4 : ce.usernameAppears = true)
    (g5 : ce.passwordAppears = true) (g6 : ce.markerAppears = false) :
    ((login_to_teams c te s).result = .ok false ∧
      (⟨.error, "Teams login error: " ++
        errMsg (.timeout "data-tid=app-bar-chat")⟩ : LogEntry) ∈
        (login_to_teams c te s).logs) ∧
    ((login_to_chatgpt c ce s2).result = .ok false ∧
      (⟨.error, "ChatGPT login error: " ++
        errMsg (.timeout "textarea placeholder Message")⟩ : LogEntry) ∈
        (login_to_chatgpt c ce s2).logs) := by
  obtain ⟨ca, nav, cp, ef, pf, ss, mk⟩ := te
  obtain ⟨ca2, nav2, cp2, lb, un, pw, mk2⟩ := ce
  simp only at h1 h2 h3 h4 h5 g1 g2 g3 g4 g5 g6
  subst h1 h2 h3 h4 h5 g1 g2 g3 g4 g5 g6
  constructor
  · constructor
    · cases ss <;>
        simp [login_to_teams, login_to_teams_body, setup_driver]
    · cases ss <;>
        simp [login_to_teams, login_to_teams_body, setup_driver]
  · constructor
    · simp [login_to_chatgpt, login_to_chatgpt_body, setup_driver]
    · simp [login_to_chatgpt, login_to_chatgpt_body, setup_driver]

/-- Witness for login_marker_timeout_fails: with every step working except
the post-login marker, the Teams login returns False. -/
theorem login_marker_timeout_fails_witness :
    (login_to_teams default_config teamsEnvTimeout initial_state).result = .ok false :=
  ((login_marker_timeout_fails default_config teamsEnvTimeout chatgptEnvTimeout
    initial_state initial_state rfl rfl rfl rfl rfl rfl rfl rfl rfl rfl rfl).1).1

/-- C4 counterexample: when the browser session cannot be constructed, the
login attempt does not propagate the failure to its caller — it returns
ok False (the construction error is caught by the catch-all handler of
login_to_teams), contradicting the claim that the failure propagates as a
fatal error past the login sequence. -/
theorem setup_driver_failure_not_propagated :
    (login_to_teams default_config teamsEnvNoDriver initial_state).result = .ok false ∧
    (login_to_teams default_config teamsEnvNoDriver initial_state).result.isOk = true :=
  ⟨rfl, rfl⟩

/-- C4 amended: a construction failure propagates out of setup_driver
itself, which performs no handling or retries; the enclosing login attempt
then catches it like any other step failure, logs it, and reports failure
to the orchestrator by returning False rather than raising. -/
theorem setup_driver_failure_handled (c : Config) (te : TeamsLoginEnv) (s : BotState)
    (h : te.chromeAvailable = false) :
    setup_driver (c.headless.getD false) te.chromeAvailable = .error .driverUnavailable ∧
    (login_to_teams c te s).result = .ok false ∧
    (⟨.error, "Teams login error: " ++ errMsg .driverUnavailable⟩ : LogEntry) ∈
      (login_to_teams c te s).logs := by
  obtain ⟨ca, nav, cp, ef, pf, ss, mk⟩ := te
  simp only at h
  subst h
  refine ⟨rfl, ?_, ?_⟩
  · simp [login_to_teams, login_to_teams_body, setup_driver]
  · simp [login_to_teams, login_to_teams_body, setup_driver]

/-- Witness for setup_driver_failure_handled: with the browser unavailable,
the Teams login returns False instead of raising. -/
theorem setup_driver_failure_handled_witness :
    (login_to_teams default_config teamsEnvNoDriver initial_state).result = .ok false :=
  (setup_driver_failure_handled default_config teamsEnvNoDriver initial_state rfl).2.1

/-- C8 counterexample: with both drivers present and the Teams quit
raising, the ChatGPT quit is never attempted and the exception propagates
out of stop — refuting the claim that a failure closing the first session
does not prevent the attempt to close the second. -/
theorem stop_not_independent_counterexample :
    bothDriversState.teams_driver.isSome = true ∧
    bothDriversState.chatgpt_driver.isSome = true ∧
    BotAction.quitDriver "chatgpt" ∉ (stop stopEnvTeamsFail bothDriversState).actions ∧
    (stop stopEnvTeamsFail bothDriversState).result = .error () := by
  refine ⟨rfl, rfl, ?_, rfl⟩
  decide

/-- C8 amended: stop quits the two sessions strictly in sequence with no
per-session exception handling: when the Teams quit raises, the exception
propagates out of stop and the ChatGPT quit is not attempted; only when the
Teams quit returns normally is the ChatGPT session quit attempted. -/
theorem stop_quits_sequentially (env : StopEnv) (s : BotState)
    (ht : s.teams_driver.isSome = true) (hc : s.chatgpt_driver.isSome = true) :
    (env.teamsQuitOk = false →
      BotAction.quitDriver "teams" ∈ (stop env s).actions ∧
      BotAction.quitDriver "chatgpt" ∉ (stop env s).actions ∧
      (stop env s).result = .error ()) ∧
    (env.teamsQuitOk = true →
      BotAction.quitDriver "chatgpt" ∈ (stop env s).actions) := by
  obtain ⟨tq, cq⟩ := env
  obtain ⟨td, cd, ir, pr⟩ := s
  cases td with
  | none => exact absurd ht (by simp)
  | some d =>
    cases cd with
    | none => exact absurd hc (by simp)
    | some d2 =>
      cases tq <;> cases cq <;>
        refine ⟨fun h => ?_, fun h => ?_⟩ <;>
        simp_all [stop]

/-- Witness for stop_quits_sequentially: in the concrete failing stop run,
the ChatGPT quit is indeed never attempted. -/
theorem stop_quits_sequentially_witness :
    BotAction.quitDriver "chatgpt" ∉ (stop stopEnvTeamsFail bothDriversState).actions :=
  ((stop_quits_sequentially stopEnvTeamsFail bothDriversState rfl rfl).1 rfl).2.1

/-- Helper: whenever the Teams driver field is set, a stop run attempts to
quit the Teams session, whatever else happens. -/
theorem quit_teams_attempted (env : StopEnv) (s : BotState)
    (h : s.teams_driver.isSome = true) :
    BotAction.quitDriver "teams" ∈ (stop env s).actions := by
  obtain ⟨tq, cq⟩ := env
  obtain ⟨td, cd, ir, pr⟩ := s
  cases td with
  | none => exact absurd h (by simp)
  | some d => cases cd <;> cases tq <;> cases cq <;> simp [stop]

/-- Helper: whenever the ChatGPT driver field is set and the Teams quit
does not raise, a stop run attempts to quit the ChatGPT session. -/
theorem quit_chatgpt_attempted (env : StopEnv) (s : BotState)
    (h : s.chatgpt_driver.isSome = true) (hq : env.teamsQuitOk = true) :
    BotAction.quitDriver "chatgpt" ∈ (stop env s).actions := by
  obtain ⟨tq, cq⟩ := env
  obtain ⟨td, cd, ir, pr⟩ := s
  simp only at hq
  subst hq
  cases cd with
  | none => exact absurd h (by simp)
  | some d => cases td <;> cases cq <;> simp [stop]

/-- C10: when setup_driver succeeds but a later login step fails, the
method returns False while the corresponding driver field still holds the
constructed driver (it is not reset to None), so the stop teardown from the
finally block of main still attempts to quit that browser (for the ChatGPT
side, provided the preceding Teams quit does not itself raise). -/
theorem login_failure_keeps_driver (c : Config) (te : TeamsLoginEnv)
    (ce : ChatgptLoginEnv) (s s2 : BotState) (se se2 : StopEnv)
    (h1 : te.chromeAvailable = true) (h5 : te.markerAppears = false)
    (g1 : ce.chromeAvailable = true) (g6 : ce.markerAppears = false)
    (hq : se2.teamsQuitOk = true) :
    ((login_to_teams c te s).result = .ok false ∧
      (login_to_teams c te s).state.teams_driver =
        some { options := buildChromeOptions (c.headless.getD false)
               pageLoadTimeoutSecs := 30, implicitWaitSecs := 10 } ∧
      BotAction.quitDriver "teams" ∈
        (stop se (login_to_teams c te s).state).actions) ∧
    ((login_to_chatgpt c ce s2).result = .ok false ∧
      (login_to_chatgpt c ce s2).state.chatgpt_driver =
        some { options := buildChromeOptions (c.headless.getD false)
               pageLoadTimeoutSecs := 30, implicitWaitSecs := 10 } ∧
      BotAction.quitDriver "chatgpt" ∈
        (stop se2 (login_to_chatgpt c ce s2).state).actions) := by
  obtain ⟨ca, nav, cp, ef, pf, ss, mk⟩ := te
  obtain ⟨ca2, nav2, cp2, lb, un, pw, mk2⟩ := ce
  simp only at h1 h5 g1 g6
  subst h1 h5 g1 g6
  have hteams : (login_to_teams c ⟨true, nav, cp, ef, pf, ss, false⟩ s).result = .ok false ∧
      (login_to_teams c ⟨true, nav, cp, ef, pf, ss, false⟩ s).state.teams_driver =
        some { options := buildChromeOptions (c.headless.getD false)
               pageLoadTimeoutSecs := 30, implicitWaitSecs := 10 } := by
    cases nav <;> cases ef <;> cases pf <;> cases ss <;>
      simp [login_to_teams, login_to_teams_body, setup_driver]
  have hchat : (login_to_chatgpt c ⟨true, nav2, cp2, lb, un, pw, false⟩ s2).result = .ok false ∧
      (login_to_chatgpt c ⟨true, nav2, cp2, lb, un, pw, false⟩ s2).state.chatgpt_driver =
        some { options := buildChromeOptions (c.headless.getD false)
               pageLoadTimeoutSecs := 30, implicitWaitSecs := 10 } := by
    cases nav2 <;> cases lb <;> cases un <;> cases pw <;>
      simp [login_to_chatgpt, login_to_chatgpt_body, setup_driver]
  refine ⟨⟨hteams.1, hteams.2, ?_⟩, ⟨hchat.1, hchat.2, ?_⟩⟩
  · exact quit_teams_attempted se _ (by rw [hteams.2]; rfl)
  · exact quit_chatgpt_attempted se2 _ (by rw [hchat.2]; rfl) hq

/-- Witness for login_failure_keeps_driver: in the concrete marker-timeout
run, the Teams driver field still holds the constructed driver. -/
theorem login_failure_keeps_driver_witness :
    (login_to_teams default_config teamsEnvTimeout initial_state).state.teams_driver =
      some { options := buildChromeOptions false
             pageLoadTimeoutSecs := 30, implicitWaitSecs := 10 } :=
  ((login_failure_keeps_driver default_config teamsEnvTimeout chatgptEnvTimeout
    initial_state initial_state ⟨true, true⟩ ⟨true, true⟩
    rfl rfl rfl rfl rfl).1).2.1

/-- Helper: the CAPTCHA pause performs only sleeps. -/
theorem no_pid_removal_in_captcha (n : Nat) :
    BotAction.fsRemove PID_FILE ∉ (captchaPause n).1 := by
  cases n <;> simp [captchaPause, List.mem_replicate]

/-- Helper: a Teams login run never removes the PID file. -/
theorem no_pid_removal_in_login_teams (c : Config) (te : TeamsLoginEnv) (s : BotState) :
    BotAction.fsRemove PID_FILE ∉ (login_to_teams c te s).actions := by
  obtain ⟨ca, nav, cp, ef, pf, ss, mk⟩ := te
  have hcp := no_pid_removal_in_captcha cp
  cases ca <;> cases nav <;> cases ef <;> cases pf <;> cases ss <;> cases mk <;>
    simp_all [login_to_teams, login_to_teams_body, setup_driver]

/-- Helper: a ChatGPT login run never removes the PID file. -/
theorem no_pid_removal_in_login_chatgpt (c : Config) (ce : ChatgptLoginEnv) (s : BotState) :
    BotAction.fsRemove PID_FILE ∉ (login_to_chatgpt c ce s).actions := by
  obtain ⟨ca, nav, cp, lb, un, pw, mk⟩ := ce
  have hcp := no_pid_removal_in_captcha cp
  cases ca <;> cases nav <;> cases lb <;> cases un <;> cases pw <;> cases mk <;>
    simp_all [login_to_chatgpt, login_to_chatgpt_body, setup_driver]

/-- Helper: a stop run quits drivers but never removes the PID file. -/
theorem no_pid_removal_in_stop (env : StopEnv) (s : BotState) :
    BotAction.fsRemove PID_FILE ∉ (stop env s).actions := by
  obtain ⟨tq, cq⟩ := env
  obtain ⟨td, cd, ir, pr⟩ := s
  cases td <;> cases cd <;> cases tq <;> cases cq <;> simp [stop]

/-- Helper: the pre-loop part of start never removes the PID file. -/
theorem no_pid_removal_in_start (c : Config) (env : StartEnv) (s : BotState) :
    BotAction.fsRemove PID_FILE ∉ (start c env s).actions := by
  by_cases h : (login_to_teams c env.teams s).result = .ok true
  · by_cases h2 : (login_to_chatgpt c env.chatgpt
        (login_to_teams c env.teams s).state).result = .ok true
    · simp [start, h, h2, List.mem_append, no_pid_removal_in_login_teams c env.teams s,
        no_pid_removal_in_login_chatgpt c env.chatgpt _]
    · simp [start, h, h2, List.mem_append, no_pid_removal_in_login_teams c env.teams s,
        no_pid_removal_in_login_chatgpt c env.chatgpt _]
  · simp [start, h, no_pid_removal_in_login_teams c env.teams s]

/-- Helper: load_config never removes the PID file. -/
theorem no_pid_removal_in_load (file : Option Config) :
    BotAction.fsRemove PID_FILE ∉ (load_config file).2.1 := by
  cases file <;> simp [load_config]

/-- Helper: no run of main ever removes the PID file: cleanup_pid has no
call site, neither in stop nor in the finally block of main. -/
theorem no_pid_removal_in_main (w : WorldEnv) :
    BotAction.fsRemove PID_FILE ∉ (mainRun w).actions := by
  obtain ⟨cf, te, ce, se⟩ := w
  by_cases h : (missing_fields (load_config cf).1).isEmpty = false
  · simp [mainRun, h, no_pid_removal_in_load cf]
  · simp [mainRun, h, List.mem_append, write_pid, no_pid_removal_in_load cf,
      no_pid_removal_in_start, no_pid_removal_in_stop]

/-- C1: the claim fails on the code.  After a termination or interrupt
signal arrives in the idle loop, the signal handler has cleared only
ProcessManager.running, the guard of the idle loop (TeamsBot.is_running) is
still true so the loop does not stop, and no execution path — not stop, not
any run of main — ever removes the PID file, although cleanup_pid (which
would remove it) exists in the program. -/
theorem signal_does_not_stop_idle_loop :
    idle_loop_continues (signal_handler bothDriversState).1 = true ∧
    (signal_handler bothDriversState).1.pm_running = false ∧
    (∀ env s, BotAction.fsRemove PID_FILE ∉ (stop env s).actions) ∧
    (∀ w, BotAction.fsRemove PID_FILE ∉ (mainRun w).actions) ∧
    cleanup_pid true = [BotAction.fsRemove PID_FILE] :=
  ⟨rfl, rfl, no_pid_removal_in_stop, no_pid_removal_in_main, rfl⟩

end TeamsChatGptBot
